import Mathlib

/-!
Shallow embedding of the Happy Thoughts API server.

The main server lives in `src/unnamed/part_001` (Express + Mongoose): a
`User` collection, a `Thought` collection, a bearer-token authentication
middleware (`authenticateUser`), and the `/thoughts` route handlers.  The
repository also holds an older variant of the `GET /thoughts` handler in
`src/server.js` (the "legacy" variant below), whose `sort` enum differs.

Modelling conventions:
  - Mongo documents become Lean structures; object ids, user ids and access
    tokens are `String`; `createdAt` is a `Nat` timestamp; `hearts` is `Int`
    (JS numbers used integrally here).
  - `Collection.findById` / `findOne` become `List.find?`; `findByIdAndDelete`
    becomes `List.eraseP`; `findByIdAndUpdate` becomes `setById` (replace the
    documents whose `_id` matches).  `.skip(n)` / `.limit(n)` are modelled as
    `List.drop` / `List.take`, which agrees with MongoDB for the non-negative
    arguments exercised by the claims.
  - Request handling is single-threaded per request (per the spec), so each
    handler is a function from the stored state and the request data to a
    `Response` and the new state.  The store-unavailable 500 paths (the
    `catch` blocks around Mongo calls) are not modelled: the store is a Lean
    list and cannot fail.
  - JS string operations used by the server (`parseInt(s, 10)`,
    `s.replace("Bearer ", "")`, `trim`, truthiness of strings, `x || d`) are
    embedded as executable functions over `List Char` / `Option`.
-/

namespace HappyThoughts

/-- Whitespace accepted by JS `parseInt` / `trim` (ASCII subset). -/
def jsWs (c : Char) : Bool :=
  c = ' ' || c = '\t' || c = '\n' || c = '\r'

/-- Trim of a char list: drop whitespace from both ends, as JS `trim`. -/
def trimChars (l : List Char) : List Char :=
  ((l.dropWhile jsWs).reverse.dropWhile jsWs).reverse

/-- JS `String.prototype.trim`, modelled over the character list. -/
def jsTrim (s : String) : String :=
  String.mk (trimChars s.toList)

/-- Value of a list of decimal digit characters. -/
def digitsToNat (l : List Char) : Nat :=
  l.foldl (fun acc c => acc * 10 + (c.toNat - '0'.toNat)) 0

/-- Longest prefix of decimal digits, `none` when there is none
(the NaN outcome of `parseInt`). -/
def parseDigits (l : List Char) : Option Nat :=
  let ds := l.takeWhile Char.isDigit
  if ds.isEmpty then none else some (digitsToNat ds)

/-- Sign handling of JS `parseInt`: one optional `+` or `-` before digits. -/
def parseIntCore (l : List Char) : Option Int :=
  match l with
  | '-' :: rest => (parseDigits rest).map (fun n => -(n : Int))
  | '+' :: rest => (parseDigits rest).map (fun n => (n : Int))
  | _ => (parseDigits l).map (fun n => (n : Int))

/-- JS `parseInt(s, 10)`: skip leading whitespace, optional sign, then the
longest digit run; `none` models NaN.  Trailing garbage is ignored. -/
def parseInt10 (s : String) : Option Int :=
  parseIntCore (s.toList.dropWhile jsWs)

/-- JS `parseInt(x, 10) || d`: NaN (and 0, which is falsy) fall back to `d`. -/
def jsOr (o : Option Int) (d : Int) : Int :=
  match o with
  | none => d
  | some n => if n = 0 then d else n

/-- Truthiness of an optional string parameter: `undefined` and `""` are
falsy, as in the `if (hearts)` / `if (sort)` guards of the handlers. -/
def truthyParam : Option String → Option String
  | none => none
  | some s => if s = "" then none else some s

/-- Character list of the literal "Bearer " used by the middleware. -/
def bearerChars : List Char := "Bearer ".toList

/-- Deletion of the first occurrence of the pattern `p` anywhere in the
list, as JS `String.prototype.replace` with a string pattern and an empty
replacement: scan left to right, remove the first match, keep the rest. -/
def stripOnce (p : List Char) : List Char → List Char
  | [] => []
  | c :: rest =>
    if p.isPrefixOf (c :: rest) then (c :: rest).drop p.length
    else c :: stripOnce p rest

/-- JS `header.replace("Bearer ", "")` from the middleware (line 53 of
`src/unnamed/part_001`). -/
def stripBearer (h : String) : String :=
  String.mk (stripOnce bearerChars h.toList)

/-- Occurrence test: does the pattern `p` occur contiguously in the list? -/
def containsPat (p : List Char) : List Char → Bool
  | [] => p.isEmpty
  | c :: rest => p.isPrefixOf (c :: rest) || containsPat p rest

/-- Case-insensitive substring test, modelling the `$regex` with the `i`
flag built from the `message` query parameter (for plain-text patterns). -/
def containsCI (hay needle : String) : Bool :=
  containsPat (needle.toList.map Char.toLower) (hay.toList.map Char.toLower)

/-- User document of the `User` Mongoose model (`src/unnamed/part_001`,
lines 28-49): unique name and email, password hash, random access token. -/
structure User where
  id : String
  name : String
  email : String
  password : String
  accessToken : String
deriving DecidableEq, Repr

/-- Thought document of the `Thought` Mongoose model (`src/unnamed/part_001`,
lines 166-186): message (trimmed, 5-140 chars), hearts (default 0),
creation timestamp, owning user id. -/
structure Thought where
  id : String
  message : String
  hearts : Int
  createdAt : Nat
  userId : String
deriving DecidableEq, Repr

/-- JSON payload placed in the `response` field of the envelope. -/
inductive Payload where
  | null
  | thought (t : Thought)
  | listing (totalResults : Nat) (currentPage : Int) (resultsPerPage : Nat)
      (thoughts : List Thought)
  | errorDetails
deriving DecidableEq, Repr

/-- Response envelope `{success, response, message}` together with the HTTP
status code set by the handler. -/
structure Response where
  status : Nat
  success : Bool
  response : Payload
  message : String
deriving DecidableEq, Repr

/-- Thoughts carried by a listing response (`GET /thoughts`), else `[]`. -/
def responseThoughts (r : Response) : List Thought :=
  match r.response with
  | .listing _ _ _ ts => ts
  | _ => []

/-- The `totalResults` field of a listing response, when there is one. -/
def responseTotal (r : Response) : Option Nat :=
  match r.response with
  | .listing tot _ _ _ => some tot
  | _ => none

/-- Validation run by Mongoose on the `message` path (required, minlength 5,
maxlength 140), applied to the value after the `trim` setter. -/
def validMessage (m : String) : Bool :=
  decide (5 ≤ (trimChars m.toList).length) && decide ((trimChars m.toList).length ≤ 140)

/-- Replacement of every document whose `_id` is `id` by `t'`, modelling
`findByIdAndUpdate` (ids are unique in the store, so at most one document
is replaced in any state Mongo itself could produce). -/
def setById (ts : List Thought) (id : String) (t' : Thought) : List Thought :=
  ts.map (fun x => if x.id = id then t' else x)

/-- Outcome of the authentication middleware: either the resolved user is
attached to the request, or the middleware has already sent a response. -/
inductive AuthResult where
  | ok (u : User)
  | err (r : Response)
deriving DecidableEq, Repr

/-- Response body sent when no access token is provided (middleware,
lines 54-60 of `src/unnamed/part_001`). -/
def noTokenResp : Response :=
  ⟨401, false, .null, "Unauthorized: No access token provided."⟩

/-- Response body sent when the token matches no user (middleware,
lines 68-74 of `src/unnamed/part_001`). -/
def invalidTokenResp : Response :=
  ⟨401, false, .null, "Unauthorized: Access token invalid or missing."⟩

/-- Middleware `authenticateUser` (`src/unnamed/part_001`, lines 52-82):
strip `"Bearer "` from the Authorization header, reject a missing or empty
token, look up the user by exact token match.  The catch-all 500 branch
(store failure) is outside the model. -/
def authenticateUser (users : List User) (authHeader : Option String) : AuthResult :=
  match authHeader with
  | none => .err noTokenResp
  | some h =>
    let accessToken := stripBearer h
    if accessToken = "" then .err noTokenResp
    else
      match users.find? (fun u => u.accessToken = accessToken) with
      | some user => .ok user
      | none => .err invalidTokenResp

/-- Server state: the two Mongo collections. -/
structure AppState where
  users : List User
  thoughts : List Thought
deriving DecidableEq, Repr

/-- Composition of the middleware with a protected handler: on success the
handler runs with the resolved user; on failure its response is sent and
the handler never runs. -/
def runAuthed (st : AppState) (authHeader : Option String)
    (handler : User → AppState → Response × AppState) : Response × AppState :=
  match authenticateUser st.users authHeader with
  | .ok u => handler u st
  | .err r => (r, st)

/-- Handler of `POST /thoughts` (`src/unnamed/part_001`, lines 339-367),
after authentication: save a new thought owned by the caller.  A missing or
invalid message is a Mongoose ValidationError (400).  `newId` and `now`
stand for the generated object id and the clock. -/
def postThought (ts : List Thought) (callerId : String) (message : Option String)
    (newId : String) (now : Nat) : Response × List Thought :=
  match message with
  | none =>
    (⟨400, false, .errorDetails, "Validation failed for thought creation."⟩, ts)
  | some m =>
    if validMessage m then
      let t : Thought := ⟨newId, jsTrim m, 0, now, callerId⟩
      (⟨201, true, .thought t, "Thought created successfully"⟩, ts ++ [t])
    else
      (⟨400, false, .errorDetails, "Validation failed for thought creation."⟩, ts)

/-- Handler of `DELETE /thoughts/:id` (`src/unnamed/part_001`,
lines 370-408), after authentication: 404 when the thought does not exist,
403 when the caller does not own it, otherwise delete it. -/
def deleteThought (ts : List Thought) (callerId id : String) : Response × List Thought :=
  match ts.find? (fun t => t.id = id) with
  | none =>
    (⟨404, false, .null, "Thought could not be found, can't delete."⟩, ts)
  | some t =>
    if t.userId ≠ callerId then
      (⟨403, false, .null, "You are not authorized to delete this thought."⟩, ts)
    else
      (⟨200, true, .thought t, "Thought was successfully deleted."⟩,
        ts.eraseP (fun x => x.id = id))

/-- Handler of `PATCH /thoughts/:id/like` (`src/unnamed/part_001`,
lines 411-442), unauthenticated: `$inc` the heart count by one. -/
def likeThought (ts : List Thought) (id : String) : Response × List Thought :=
  match ts.find? (fun t => t.id = id) with
  | none =>
    (⟨404, false, .null, "Thought could not be found to like."⟩, ts)
  | some t =>
    (⟨200, true, .thought { t with hearts := t.hearts + 1 }, "Thought successfully liked."⟩,
      setById ts id { t with hearts := t.hearts + 1 })

/-- Hearts entry of `updateFields` in `PATCH /thoughts/:id`
(`src/unnamed/part_001`, lines 476-483): on `unlike`, floor the decrement
at 0 and record it only when it changes the stored value. -/
def heartsUpdOf (thought : Thought) (unlike : Bool) : Option Int :=
  if unlike then
    if max 0 (thought.hearts - 1) ≠ thought.hearts then some (max 0 (thought.hearts - 1))
    else none
  else none

/-- Tail of `PATCH /thoughts/:id` after the ownership check
(`src/unnamed/part_001`, lines 485-511): when `updateFields` is empty,
answer 200 with the unmodified record; otherwise run `findByIdAndUpdate`
with validators (only the `message` path has validators). -/
def patchApply (ts : List Thought) (id : String) (thought : Thought)
    (msgUpd : Option String) (heartsUpd : Option Int) : Response × List Thought :=
  match msgUpd, heartsUpd with
  | none, none =>
    (⟨200, true, .thought thought, "No valid update fields provided, thought not modified."⟩, ts)
  | some m, hu =>
    if validMessage m then
      (⟨200, true,
          .thought { thought with message := jsTrim m, hearts := hu.getD thought.hearts },
          "Thought was successfully updated."⟩,
        setById ts id { thought with message := jsTrim m, hearts := hu.getD thought.hearts })
    else
      (⟨400, false, .errorDetails, "Validation failed for thought update."⟩, ts)
  | none, some h =>
    (⟨200, true, .thought { thought with hearts := h }, "Thought was successfully updated."⟩,
      setById ts id { thought with hearts := h })

/-- Handler of `PATCH /thoughts/:id` (`src/unnamed/part_001`,
lines 445-527), after authentication: 404 when the thought does not exist;
a requested message edit is owner-only (403 otherwise); the `unlike` flag
decrements hearts floored at 0 with no ownership check. -/
def patchThought (ts : List Thought) (callerId id : String)
    (message : Option String) (unlike : Bool) : Response × List Thought :=
  match ts.find? (fun t => t.id = id) with
  | none =>
    (⟨404, false, .null, "Thought could not be found."⟩, ts)
  | some thought =>
    match message with
    | some m =>
      if thought.userId ≠ callerId then
        (⟨403, false, .null, "You are not authorized to edit this thought's message."⟩, ts)
      else
        patchApply ts id thought (some m) (heartsUpdOf thought unlike)
    | none =>
      patchApply ts id thought none (heartsUpdOf thought unlike)

/-- Routed `DELETE /thoughts/:id`: middleware then handler, threading the
authenticated user's id (`req.user._id`). -/
def routeDeleteThought (st : AppState) (authHeader : Option String) (id : String) :
    Response × AppState :=
  runAuthed st authHeader (fun u s =>
    let p := deleteThought s.thoughts u.id id
    (p.fst, { s with thoughts := p.snd }))

/-- Routed `PATCH /thoughts/:id`: middleware then handler. -/
def routePatchThought (st : AppState) (authHeader : Option String) (id : String)
    (message : Option String) (unlike : Bool) : Response × AppState :=
  runAuthed st authHeader (fun u s =>
    let p := patchThought s.thoughts u.id id message unlike
    (p.fst, { s with thoughts := p.snd }))

/-- Insertion of `x` into `l` before the first element `y` with `le x y`. -/
def insertLe (le : Thought → Thought → Bool) (x : Thought) : List Thought → List Thought
  | [] => [x]
  | y :: ys => if le x y then x :: y :: ys else y :: insertLe le x ys

/-- Insertion sort by the boolean relation `le`; stands for the Mongo
`.sort(sortOptions)` stage (the claims only use that it is a permutation
and is determined by the sort key). -/
def sortLe (le : Thought → Thought → Bool) : List Thought → List Thought
  | [] => []
  | x :: xs => insertLe le x (sortLe le xs)

/-- Sort specification built from the `sort` query parameter. -/
inductive SortKey where
  | natural
  | createdAtDesc
  | createdAtAsc
  | heartsDesc
deriving DecidableEq, Repr

/-- Application of a sort specification, as Mongo `.sort`. -/
def applySort : SortKey → List Thought → List Thought
  | .natural, l => l
  | .createdAtDesc, l => sortLe (fun a b => decide (b.createdAt ≤ a.createdAt)) l
  | .createdAtAsc, l => sortLe (fun a b => decide (a.createdAt ≤ b.createdAt)) l
  | .heartsDesc, l => sortLe (fun a b => decide (b.hearts ≤ a.hearts)) l

/-- Query parameters of `GET /thoughts` (`req.query`). -/
structure ThoughtsParams where
  hearts : Option String
  message : Option String
  page : Option String
  limit : Option String
  sort : Option String
  id : Option String
deriving DecidableEq, Repr

/-- Bad-hearts response of the main handler (`src/unnamed/part_001`,
lines 245-249). -/
def invalidHeartsResp : Response :=
  ⟨400, false, .null, "Invalid 'hearts' parameter. Must be a number."⟩

/-- Hearts step of the main `GET /thoughts` handler (`src/unnamed/part_001`,
lines 240-251): a truthy parameter must `parseInt`, else 400. -/
def heartsFilterOf (hearts : Option String) : Except Response (Option Int) :=
  match truthyParam hearts with
  | none => .ok none
  | some s =>
    match parseInt10 s with
    | some n => .ok (some n)
    | none => .error invalidHeartsResp

/-- Bad-sort response of the main handler (`src/unnamed/part_001`,
lines 268-272). -/
def invalidSortRespMain : Response :=
  ⟨400, false, .null,
    "Invalid 'sort' parameter. Valid options are 'createdAt_desc', 'createdAt_asc', or 'hearts'."⟩

/-- Sort step of the main `GET /thoughts` handler (`src/unnamed/part_001`,
lines 259-274). -/
def sortKeyOfMain (sort : Option String) : Except Response SortKey :=
  match truthyParam sort with
  | none => .ok .natural
  | some s =>
    if s = "createdAt_desc" ∨ s = "createdAt" then .ok .createdAtDesc
    else if s = "createdAt_asc" then .ok .createdAtAsc
    else if s = "hearts" then .ok .heartsDesc
    else .error invalidSortRespMain

/-- Mongo filter built from the `id`, `hearts` and `message` parameters. -/
def matchesQuery (idF : Option String) (heartsGte : Option Int) (msgSub : Option String)
    (t : Thought) : Bool :=
  (match idF with | none => true | some i => t.id == i) &&
  (match heartsGte with | none => true | some n => decide (n ≤ t.hearts)) &&
  (match msgSub with | none => true | some m => containsCI t.message m)

/-- Main `GET /thoughts` handler (`src/unnamed/part_001`, lines 229-305):
build the filter (hearts may 400), the sort key (may 400), the page window
`[(page-1)*limit, page*limit)` with JS fallback defaults, then filter, sort,
paginate, and report the pre-pagination total. -/
def getThoughts (ts : List Thought) (q : ThoughtsParams) : Response :=
  match heartsFilterOf q.hearts with
  | .error r => r
  | .ok heartsGte =>
    match sortKeyOfMain q.sort with
    | .error r => r
    | .ok sk =>
      let pageNum : Int := jsOr (q.page.bind parseInt10) 1
      let limitNum : Int := jsOr (q.limit.bind parseInt10) 10
      let startIndex : Int := (pageNum - 1) * limitNum
      let filtered := ts.filter
        (matchesQuery (truthyParam q.id) heartsGte (truthyParam q.message))
      let sorted := applySort sk filtered
      let paged := (sorted.drop startIndex.toNat).take limitNum.toNat
      ⟨200, true, .listing filtered.length pageNum paged.length paged,
        "Thoughts retrieved successfully."⟩

/-- Bad-sort response of the legacy handler (`src/server.js`,
lines 117-121). -/
def invalidSortRespLegacy : Response :=
  ⟨400, false, .null, "Invalid 'sort' parameter. Valid options are 'createdAt' or 'hearts'."⟩

/-- Sort step of the legacy `GET /thoughts` handler (`src/server.js`,
lines 110-123): only `createdAt` and `hearts` are recognized. -/
def sortKeyOfLegacy (sort : Option String) : Except Response SortKey :=
  match truthyParam sort with
  | none => .ok .natural
  | some s =>
    if s = "createdAt" then .ok .createdAtDesc
    else if s = "hearts" then .ok .heartsDesc
    else .error invalidSortRespLegacy

/-- Legacy `GET /thoughts` handler (`src/server.js`, lines 82-154): same
pipeline as the main one, but without the `id` parameter and with the
two-value sort enum. -/
def legacyGetThoughts (ts : List Thought) (q : ThoughtsParams) : Response :=
  match heartsFilterOf q.hearts with
  | .error r => r
  | .ok heartsGte =>
    match sortKeyOfLegacy q.sort with
    | .error r => r
    | .ok sk =>
      let pageNum : Int := jsOr (q.page.bind parseInt10) 1
      let limitNum : Int := jsOr (q.limit.bind parseInt10) 10
      let startIndex : Int := (pageNum - 1) * limitNum
      let filtered := ts.filter (matchesQuery none heartsGte (truthyParam q.message))
      let sorted := applySort sk filtered
      let paged := (sorted.drop startIndex.toNat).take limitNum.toNat
      ⟨200, true, .listing filtered.length pageNum paged.length paged,
        "Thoughts retrieved successfully."⟩

/-! Helper lemmas about the embedded operations. -/

theorem isPrefixOf_append (p l : List Char) : p.isPrefixOf (p ++ l) = true := by
  induction p with
  | nil => simp [List.isPrefixOf]
  | cons a as ih => simp [List.isPrefixOf, ih]

theorem stripOnce_append (p l : List Char) (hp : p ≠ []) : stripOnce p (p ++ l) = l := by
  cases p with
  | nil => exact absurd rfl hp
  | cons a as =>
    show stripOnce (a :: as) ((a :: as) ++ l) = l
    rw [List.cons_append, stripOnce]
    rw [show a :: (as ++ l) = (a :: as) ++ l from rfl, isPrefixOf_append]
    simp [List.drop_left]

theorem stripBearer_bearer (t : String) : stripBearer ("Bearer " ++ t) = t := by
  cases t with
  | mk data =>
    show String.mk (stripOnce bearerChars (bearerChars ++ data)) = String.mk data
    rw [stripOnce_append bearerChars data (by decide)]

theorem stripOnce_of_not_contains (p : List Char) (l : List Char)
    (h : containsPat p l = false) : stripOnce p l = l := by
  induction l with
  | nil => rfl
  | cons c rest ih =>
    rw [containsPat, Bool.or_eq_false_iff] at h
    rw [stripOnce, h.1, ih h.2]
    simp

theorem stripBearer_of_not_contains (h : String)
    (hc : containsPat bearerChars h.toList = false) : stripBearer h = h := by
  cases h with
  | mk data =>
    show String.mk (stripOnce bearerChars data) = String.mk data
    rw [stripOnce_of_not_contains bearerChars data hc]

theorem find?_setById (ts : List Thought) (id : String) (t' : Thought) (hid : t'.id = id) :
    (setById ts id t').find? (fun x => x.id = id) =
      (ts.find? (fun x => x.id = id)).map (fun _ => t') := by
  induction ts with
  | nil => rfl
  | cons y ys ih =>
    by_cases hy : y.id = id
    · simp [setById, List.find?, hy, hid]
    · simp only [setById] at ih ⊢
      simp [List.find?, hy, ih]

theorem find?_id_of_some (ts : List Thought) (id : String) (t : Thought)
    (h : ts.find? (fun x => x.id = id) = some t) : t.id = id := by
  have := List.find?_some h
  simpa using this

theorem insertLe_perm (le : Thought → Thought → Bool) (x : Thought) (l : List Thought) :
    (insertLe le x l).Perm (x :: l) := by
  induction l with
  | nil => exact List.Perm.refl _
  | cons y ys ih =>
    rw [insertLe]
    split
    · exact List.Perm.refl _
    · exact (List.Perm.cons y ih).trans (List.Perm.swap x y ys)

theorem sortLe_perm (le : Thought → Thought → Bool) (l : List Thought) :
    (sortLe le l).Perm l := by
  induction l with
  | nil => exact List.Perm.refl _
  | cons x xs ih =>
    exact (insertLe_perm le x (sortLe le xs)).trans (List.Perm.cons x ih)

theorem mem_applySort (a : Thought) (sk : SortKey) (l : List Thought) :
    a ∈ applySort sk l ↔ a ∈ l := by
  cases sk with
  | natural => exact Iff.rfl
  | createdAtDesc => exact (sortLe_perm _ l).mem_iff
  | createdAtAsc => exact (sortLe_perm _ l).mem_iff
  | heartsDesc => exact (sortLe_perm _ l).mem_iff

theorem authenticateUser_err_cases (users : List User) (h : Option String) (r : Response)
    (he : authenticateUser users h = .err r) : r = noTokenResp ∨ r = invalidTokenResp := by
  cases h with
  | none =>
    have he' : AuthResult.err noTokenResp = AuthResult.err r := he
    simp only [AuthResult.err.injEq] at he'
    exact Or.inl he'.symm
  | some s =>
    have he' : (if stripBearer s = "" then AuthResult.err noTokenResp
        else match users.find? (fun u => u.accessToken = stripBearer s) with
          | some user => AuthResult.ok user
          | none => AuthResult.err invalidTokenResp) = AuthResult.err r := he
    by_cases hz : stripBearer s = ""
    · rw [if_pos hz] at he'
      simp only [AuthResult.err.injEq] at he'
      exact Or.inl he'.symm
    · rw [if_neg hz] at he'
      cases hf : users.find? (fun u => u.accessToken = stripBearer s) with
      | some u => rw [hf] at he'; exact absurd he' (by simp)
      | none =>
        rw [hf] at he'
        simp only [AuthResult.err.injEq] at he'
        exact Or.inr he'.symm

theorem authenticateUser_err_status (users : List User) (h : Option String) (r : Response)
    (he : authenticateUser users h = .err r) : r.status = 401 := by
  rcases authenticateUser_err_cases users h r he with hr | hr <;> rw [hr] <;> rfl

/-! Concrete fixtures used by the witness theorems. -/

/-- Fixture user owning `t1`. -/
def alice : User := ⟨"u1", "alice", "a@x.com", "hash1", "tokA"⟩

/-- Fixture user distinct from the owner of `t1`. -/
def bob : User := ⟨"u2", "bob", "b@x.com", "hash2", "tokB"⟩

/-- Fixture thought owned by `alice`. -/
def t1 : Thought := ⟨"t1", "hello world", 3, 100, "u1"⟩

/-- Fixture thought owned by `alice` with zero hearts. -/
def t2 : Thought := ⟨"t2", "another thought", 0, 200, "u1"⟩

/-- Fixture thought owned by `bob`. -/
def t3 : Thought := ⟨"t3", "third thought here", 7, 300, "u2"⟩

/-- Fixture application state. -/
def st1 : AppState := ⟨[alice, bob], [t1, t2, t3]⟩

/-- Fixture query parameters with every field absent. -/
def emptyParams : ThoughtsParams := ⟨none, none, none, none, none, none⟩

/-! Unfolding lemmas for the middleware and the handlers. -/

theorem authenticateUser_some (users : List User) (h : String) :
    authenticateUser users (some h) =
      (if stripBearer h = "" then .err noTokenResp
       else
         match users.find? (fun u => u.accessToken = stripBearer h) with
         | some user => .ok user
         | none => .err invalidTokenResp) := rfl

theorem runAuthed_err (st : AppState) (hdr : Option String)
    (handler : User → AppState → Response × AppState) (r : Response)
    (h : authenticateUser st.users hdr = .err r) : runAuthed st hdr handler = (r, st) := by
  unfold runAuthed
  rw [h]

theorem runAuthed_ok (st : AppState) (hdr : Option String)
    (handler : User → AppState → Response × AppState) (u : User)
    (h : authenticateUser st.users hdr = .ok u) : runAuthed st hdr handler = handler u st := by
  unfold runAuthed
  rw [h]

theorem routeDeleteThought_err (st : AppState) (hdr : Option String) (id : String)
    (r : Response) (h : authenticateUser st.users hdr = .err r) :
    routeDeleteThought st hdr id = (r, st) :=
  runAuthed_err st hdr _ r h

theorem routePatchThought_err (st : AppState) (hdr : Option String) (id : String)
    (message : Option String) (unlike : Bool) (r : Response)
    (h : authenticateUser st.users hdr = .err r) :
    routePatchThought st hdr id message unlike = (r, st) :=
  runAuthed_err st hdr _ r h

theorem routeDeleteThought_ok (st : AppState) (hdr : Option String) (id : String) (u : User)
    (hu : authenticateUser st.users hdr = .ok u) :
    routeDeleteThought st hdr id =
      ((deleteThought st.thoughts u.id id).fst,
        { st with thoughts := (deleteThought st.thoughts u.id id).snd }) :=
  runAuthed_ok st hdr _ u hu

theorem routePatchThought_ok (st : AppState) (hdr : Option String) (id : String)
    (message : Option String) (unlike : Bool) (u : User)
    (hu : authenticateUser st.users hdr = .ok u) :
    routePatchThought st hdr id message unlike =
      ((patchThought st.thoughts u.id id message unlike).fst,
        { st with thoughts := (patchThought st.thoughts u.id id message unlike).snd }) :=
  runAuthed_ok st hdr _ u hu

theorem deleteThought_not_found (ts : List Thought) (cid id : String)
    (hf : ts.find? (fun x => x.id = id) = none) :
    deleteThought ts cid id =
      (⟨404, false, .null, "Thought could not be found, can't delete."⟩, ts) := by
  unfold deleteThought
  rw [hf]

theorem deleteThought_not_owner (ts : List Thought) (cid id : String) (t : Thought)
    (hf : ts.find? (fun x => x.id = id) = some t) (ht : t.userId ≠ cid) :
    deleteThought ts cid id =
      (⟨403, false, .null, "You are not authorized to delete this thought."⟩, ts) := by
  unfold deleteThought
  rw [hf]
  simp [ht]

theorem deleteThought_owner (ts : List Thought) (cid id : String) (t : Thought)
    (hf : ts.find? (fun x => x.id = id) = some t) (ht : t.userId = cid) :
    deleteThought ts cid id =
      (⟨200, true, .thought t, "Thought was successfully deleted."⟩,
        ts.eraseP (fun x => x.id = id)) := by
  unfold deleteThought
  rw [hf]
  simp [ht]

theorem likeThought_found (ts : List Thought) (id : String) (t : Thought)
    (hf : ts.find? (fun x => x.id = id) = some t) :
    likeThought ts id =
      (⟨200, true, .thought { t with hearts := t.hearts + 1 }, "Thought successfully liked."⟩,
        setById ts id { t with hearts := t.hearts + 1 }) := by
  unfold likeThought
  rw [hf]

theorem patchThought_not_found (ts : List Thought) (cid id : String)
    (message : Option String) (unlike : Bool)
    (hf : ts.find? (fun x => x.id = id) = none) :
    patchThought ts cid id message unlike =
      (⟨404, false, .null, "Thought could not be found."⟩, ts) := by
  unfold patchThought
  rw [hf]

theorem patchThought_not_owner (ts : List Thought) (cid id : String) (t : Thought)
    (m : String) (unlike : Bool)
    (hf : ts.find? (fun x => x.id = id) = some t) (ht : t.userId ≠ cid) :
    patchThought ts cid id (some m) unlike =
      (⟨403, false, .null, "You are not authorized to edit this thought's message."⟩, ts) := by
  unfold patchThought
  rw [hf]
  simp [ht]

theorem patchThought_owner_msg (ts : List Thought) (cid id : String) (t : Thought)
    (m : String) (unlike : Bool)
    (hf : ts.find? (fun x => x.id = id) = some t) (ht : t.userId = cid) :
    patchThought ts cid id (some m) unlike =
      patchApply ts id t (some m) (heartsUpdOf t unlike) := by
  unfold patchThought
  rw [hf]
  simp [ht]

theorem patchThought_no_msg (ts : List Thought) (cid id : String) (t : Thought) (unlike : Bool)
    (hf : ts.find? (fun x => x.id = id) = some t) :
    patchThought ts cid id none unlike = patchApply ts id t none (heartsUpdOf t unlike) := by
  unfold patchThought
  rw [hf]

theorem patchThought_unlike (ts : List Thought) (cid id : String) (t : Thought)
    (hf : ts.find? (fun x => x.id = id) = some t) :
    patchThought ts cid id none true =
      (if max 0 (t.hearts - 1) = t.hearts then
        (⟨200, true, .thought t, "No valid update fields provided, thought not modified."⟩, ts)
       else
        (⟨200, true, .thought { t with hearts := max 0 (t.hearts - 1) },
            "Thought was successfully updated."⟩,
          setById ts id { t with hearts := max 0 (t.hearts - 1) })) := by
  rw [patchThought_no_msg ts cid id t true hf]
  by_cases hmax : max 0 (t.hearts - 1) = t.hearts
  · simp [heartsUpdOf, patchApply, hmax]
  · simp [heartsUpdOf, patchApply, hmax]

theorem patchThought_neither (ts : List Thought) (cid id : String) (t : Thought)
    (hf : ts.find? (fun x => x.id = id) = some t) :
    patchThought ts cid id none false =
      (⟨200, true, .thought t, "No valid update fields provided, thought not modified."⟩, ts) := by
  rw [patchThought_no_msg ts cid id t false hf]
  simp [heartsUpdOf, patchApply]

/-! Claim theorems. -/

/-- C2: on a protected route, an absent Authorization header yields 401 with
body success false, response null, message "Unauthorized: No access token
provided." and the handler never runs; a presented token matched by no user
yields 401 with message "Unauthorized: Access token invalid or missing.";
a matched user is attached and the next stage (the handler) is invoked. -/
theorem c2_auth_middleware (st : AppState) (t : String) (u : User)
    (handler : User → AppState → Response × AppState) :
    (authenticateUser st.users none =
        .err ⟨401, false, Payload.null, "Unauthorized: No access token provided."⟩ ∧
      runAuthed st none handler =
        (⟨401, false, Payload.null, "Unauthorized: No access token provided."⟩, st)) ∧
    (t ≠ "" → st.users.find? (fun x => x.accessToken = t) = none →
      authenticateUser st.users (some ("Bearer " ++ t)) =
        .err ⟨401, false, Payload.null, "Unauthorized: Access token invalid or missing."⟩ ∧
      runAuthed st (some ("Bearer " ++ t)) handler =
        (⟨401, false, Payload.null, "Unauthorized: Access token invalid or missing."⟩, st)) ∧
    (t ≠ "" → st.users.find? (fun x => x.accessToken = t) = some u →
      authenticateUser st.users (some ("Bearer " ++ t)) = .ok u ∧
      runAuthed st (some ("Bearer " ++ t)) handler = handler u st) := by
  refine ⟨⟨rfl, rfl⟩, fun ht hf => ?_, fun ht hf => ?_⟩
  · have ha : authenticateUser st.users (some ("Bearer " ++ t)) = .err invalidTokenResp := by
      rw [authenticateUser_some, stripBearer_bearer, if_neg ht, hf]
    exact ⟨ha, runAuthed_err st _ handler _ ha⟩
  · have ha : authenticateUser st.users (some ("Bearer " ++ t)) = .ok u := by
      rw [authenticateUser_some, stripBearer_bearer, if_neg ht, hf]
    exact ⟨ha, runAuthed_ok st _ handler u ha⟩

/-- Witness for C2: with the fixture users, the missing-header branch and
the matched-token branch are exercised at concrete inputs. -/
theorem c2_auth_middleware_witness :
    authenticateUser st1.users (some ("Bearer " ++ "tokA")) = .ok alice ∧
    authenticateUser st1.users none =
      .err ⟨401, false, Payload.null, "Unauthorized: No access token provided."⟩ := by
  have h := c2_auth_middleware st1 "tokA" alice (fun _ s => (⟨200, true, Payload.null, "ok"⟩, s))
  exact ⟨(h.2.2 (by decide) (by decide)).1, h.1.1⟩

/-- Fixture user whose stored access token itself contains "Bearer ". -/
def carol : User := ⟨"u9", "carol", "c@x.com", "hash9", "aBearer b"⟩

/-- C10 counterexample: the middleware does not use the entire header value
as the token when the header does not begin with "Bearer ": JS `replace`
deletes the first occurrence of "Bearer " anywhere, so the header
"aBearer b" becomes the token "ab", and a user whose accessToken is exactly
"aBearer b" is rejected with 401 instead of authenticating. -/
theorem c10_counterexample :
    stripBearer "aBearer b" = "ab" ∧
    authenticateUser [carol] (some "aBearer b") =
      .err ⟨401, false, Payload.null, "Unauthorized: Access token invalid or missing."⟩ := by
  exact ⟨by decide, by decide⟩

/-- C10 amended: the middleware deletes the first occurrence of the
substring "Bearer " anywhere in the header (a "Bearer "-prefixed header
loses exactly that prefix); when "Bearer " does not occur in the header at
all, the entire header value is used as the token, so a bare token free of
that substring authenticates when it matches a user's accessToken. -/
theorem c10_token_strip_amended (users : List User) (u : User) (h : String) :
    stripBearer ("Bearer " ++ h) = h ∧
    (containsPat bearerChars h.toList = false → stripBearer h = h) ∧
    (containsPat bearerChars h.toList = false → h ≠ "" →
      users.find? (fun x => x.accessToken = h) = some u →
      authenticateUser users (some h) = .ok u) := by
  refine ⟨stripBearer_bearer h, fun hc => stripBearer_of_not_contains h hc, fun hc hne hf => ?_⟩
  rw [authenticateUser_some, stripBearer_of_not_contains h hc, if_neg hne, hf]

/-- Witness for C10 amended: the bare token "tokB" (no Bearer scheme)
authenticates bob against the fixture state. -/
theorem c10_token_strip_amended_witness :
    authenticateUser st1.users (some "tokB") = .ok bob :=
  (c10_token_strip_amended st1.users bob "tokB").2.2 (by decide) (by decide) (by decide)

/-- C1: for DELETE /thoughts/:id and a message edit via PATCH /thoughts/:id,
an unauthenticated caller gets 401 with the state unchanged (no ownership
check is reached: the outcome is the middleware response whatever the
thoughts collection holds); an authenticated non-owner gets 403 with the
state unchanged; and a 200 outcome implies the caller owns the thought. -/
theorem c1_owner_only_delete_edit (st : AppState) (hdr : Option String) (id m : String)
    (unlike : Bool) :
    (∀ r, authenticateUser st.users hdr = .err r →
      r.status = 401 ∧ routeDeleteThought st hdr id = (r, st) ∧
      routePatchThought st hdr id (some m) unlike = (r, st)) ∧
    (∀ u t, authenticateUser st.users hdr = .ok u →
      st.thoughts.find? (fun x => x.id = id) = some t → t.userId ≠ u.id →
      routeDeleteThought st hdr id =
        (⟨403, false, Payload.null, "You are not authorized to delete this thought."⟩, st) ∧
      routePatchThought st hdr id (some m) unlike =
        (⟨403, false, Payload.null,
          "You are not authorized to edit this thought's message."⟩, st)) ∧
    ((routeDeleteThought st hdr id).fst.status = 200 →
      ∃ u t, authenticateUser st.users hdr = .ok u ∧
        st.thoughts.find? (fun x => x.id = id) = some t ∧ t.userId = u.id) ∧
    ((routePatchThought st hdr id (some m) unlike).fst.status = 200 →
      ∃ u t, authenticateUser st.users hdr = .ok u ∧
        st.thoughts.find? (fun x => x.id = id) = some t ∧ t.userId = u.id) := by
  refine ⟨fun r hr => ?_, fun u t hu hf ht => ?_, ?_, ?_⟩
  · exact ⟨authenticateUser_err_status st.users hdr r hr,
      runAuthed_err st hdr _ r hr, runAuthed_err st hdr _ r hr⟩
  · constructor
    · rw [routeDeleteThought_ok st hdr id u hu, deleteThought_not_owner _ _ _ t hf ht]
    · rw [routePatchThought_ok st hdr id (some m) unlike u hu,
        patchThought_not_owner _ _ _ t m unlike hf ht]
  · intro h200
    cases ha : authenticateUser st.users hdr with
    | err r =>
      rw [routeDeleteThought_err st hdr id r ha] at h200
      have h401 := authenticateUser_err_status st.users hdr r ha
      have h200' : r.status = 200 := h200
      omega
    | ok u =>
      cases hf : st.thoughts.find? (fun x => x.id = id) with
      | none =>
        rw [routeDeleteThought_ok st hdr id u ha,
          deleteThought_not_found _ _ _ hf] at h200
        simp at h200
      | some t =>
        by_cases ho : t.userId = u.id
        · exact ⟨u, t, rfl, rfl, ho⟩
        · rw [routeDeleteThought_ok st hdr id u ha,
            deleteThought_not_owner _ _ _ t hf ho] at h200
          simp at h200
  · intro h200
    cases ha : authenticateUser st.users hdr with
    | err r =>
      rw [routePatchThought_err st hdr id (some m) unlike r ha] at h200
      have h401 := authenticateUser_err_status st.users hdr r ha
      have h200' : r.status = 200 := h200
      omega
    | ok u =>
      cases hf : st.thoughts.find? (fun x => x.id = id) with
      | none =>
        rw [routePatchThought_ok st hdr id (some m) unlike u ha,
          patchThought_not_found _ _ _ (some m) unlike hf] at h200
        simp at h200
      | some t =>
        by_cases ho : t.userId = u.id
        · exact ⟨u, t, rfl, rfl, ho⟩
        · rw [routePatchThought_ok st hdr id (some m) unlike u ha,
            patchThought_not_owner _ _ _ t m unlike hf ho] at h200
          simp at h200

/-- Witness for C1: bob, authenticated with his own token, attempts to
delete and to edit alice's thought and gets 403 with the state unchanged. -/
theorem c1_owner_only_delete_edit_witness :
    routeDeleteThought st1 (some "Bearer tokB") "t1" =
      (⟨403, false, Payload.null, "You are not authorized to delete this thought."⟩, st1) ∧
    routePatchThought st1 (some "Bearer tokB") "t1" (some "edited message") false =
      (⟨403, false, Payload.null,
        "You are not authorized to edit this thought's message."⟩, st1) := by
  have h := c1_owner_only_delete_edit st1 (some "Bearer tokB") "t1" "edited message" false
  exact h.2.1 bob t1 (by decide) (by decide) (by decide)

/-- C3: heart counts behave as claimed: a like stores hearts incremented by
exactly 1, two likes by exactly 2; an unlike via the combined PATCH stores
max 0 (hearts - 1), so unliking at 0 leaves 0; and both operations preserve
nonnegativity of the heart count. -/
theorem c3_hearts_like_unlike (ts : List Thought) (id cid : String) (t : Thought)
    (hf : ts.find? (fun x => x.id = id) = some t) :
    ((likeThought ts id).snd.find? (fun x => x.id = id) =
        some { t with hearts := t.hearts + 1 }) ∧
    ((likeThought (likeThought ts id).snd id).snd.find? (fun x => x.id = id) =
        some { t with hearts := t.hearts + 2 }) ∧
    ((patchThought ts cid id none true).snd.find? (fun x => x.id = id) =
        some { t with hearts := max 0 (t.hearts - 1) }) ∧
    (t.hearts = 0 →
      (patchThought ts cid id none true).snd.find? (fun x => x.id = id) = some t) ∧
    (0 ≤ t.hearts →
      (∀ t', (likeThought ts id).snd.find? (fun x => x.id = id) = some t' →
        0 ≤ t'.hearts) ∧
      (∀ t', (patchThought ts cid id none true).snd.find? (fun x => x.id = id) = some t' →
        0 ≤ t'.hearts)) := by
  have hid : t.id = id := find?_id_of_some ts id t hf
  have hsnd1 : (likeThought ts id).snd = setById ts id { t with hearts := t.hearts + 1 } := by
    rw [likeThought_found ts id t hf]
  have hlike1 : (likeThought ts id).snd.find? (fun x => x.id = id) =
      some { t with hearts := t.hearts + 1 } := by
    rw [hsnd1, find?_setById ts id { t with hearts := t.hearts + 1 } hid, hf]
    rfl
  have hsnd2 : (likeThought (likeThought ts id).snd id).snd =
      setById (likeThought ts id).snd id { t with hearts := t.hearts + 1 + 1 } := by
    rw [likeThought_found (likeThought ts id).snd id { t with hearts := t.hearts + 1 } hlike1]
  have hlike2 : (likeThought (likeThought ts id).snd id).snd.find? (fun x => x.id = id) =
      some { t with hearts := t.hearts + 2 } := by
    rw [hsnd2, find?_setById (likeThought ts id).snd id
        { t with hearts := t.hearts + 1 + 1 } hid, hlike1]
    show (some { t with hearts := t.hearts + 1 + 1 } : Option Thought) =
      some { t with hearts := t.hearts + 2 }
    have h11 : t.hearts + 1 + 1 = t.hearts + 2 := by ring
    rw [h11]
  have hunlike : (patchThought ts cid id none true).snd.find? (fun x => x.id = id) =
      some { t with hearts := max 0 (t.hearts - 1) } := by
    rw [patchThought_unlike ts cid id t hf]
    by_cases hmax : max 0 (t.hearts - 1) = t.hearts
    · rw [if_pos hmax, hf, hmax]
    · rw [if_neg hmax]
      show (setById ts id { t with hearts := max 0 (t.hearts - 1) }).find? _ = _
      rw [find?_setById ts id { t with hearts := max 0 (t.hearts - 1) } hid, hf]
      rfl
  refine ⟨hlike1, hlike2, hunlike, fun h0 => ?_, fun hnn => ⟨fun t' ht' => ?_, fun t' ht' => ?_⟩⟩
  · rw [hunlike]
    have hmax : max 0 (t.hearts - 1) = t.hearts := by rw [h0]; decide
    rw [hmax]
  · have heq := hlike1.symm.trans ht'
    injection heq with h
    rw [← h]
    show 0 ≤ t.hearts + 1
    omega
  · have heq := hunlike.symm.trans ht'
    injection heq with h
    rw [← h]
    exact le_max_left 0 (t.hearts - 1)

/-- Witness for C3: liking the fixture thought t1 stores 4 hearts, and
unliking the zero-heart fixture thought t2 leaves it unchanged at 0. -/
theorem c3_hearts_like_unlike_witness :
    (likeThought st1.thoughts "t1").snd.find? (fun x => x.id = "t1") =
      some { t1 with hearts := t1.hearts + 1 } ∧
    (patchThought st1.thoughts "u9" "t2" none true).snd.find? (fun x => x.id = "t2") =
      some t2 := by
  have h1 := c3_hearts_like_unlike st1.thoughts "t1" "u9" t1 (by decide)
  have h2 := c3_hearts_like_unlike st1.thoughts "t2" "u9" t2 (by decide)
  exact ⟨h1.1, h2.2.2.2.1 (by decide)⟩

/-- C8: in the combined PATCH /thoughts/:id on an existing thought, the
message edit and the unlike are independent sub-operations: a message edit
by a non-owner is 403 with the state unchanged whatever the unlike flag;
an unlike alone is applied for any authenticated caller without ownership
check (200, hearts floored at 0); and a body requesting neither yields 200
with the unmodified record. -/
theorem c8_patch_combined (ts : List Thought) (cid id : String) (t : Thought)
    (m : String) (unlike : Bool)
    (hf : ts.find? (fun x => x.id = id) = some t) :
    (t.userId ≠ cid →
      patchThought ts cid id (some m) unlike =
        (⟨403, false, Payload.null,
          "You are not authorized to edit this thought's message."⟩, ts)) ∧
    ((patchThought ts cid id none true).fst.status = 200 ∧
      (patchThought ts cid id none true).snd.find? (fun x => x.id = id) =
        some { t with hearts := max 0 (t.hearts - 1) }) ∧
    (patchThought ts cid id none false =
      (⟨200, true, .thought t, "No valid update fields provided, thought not modified."⟩,
        ts)) := by
  have hid : t.id = id := find?_id_of_some ts id t hf
  refine ⟨fun ht => patchThought_not_owner ts cid id t m unlike hf ht, ⟨?_, ?_⟩,
    patchThought_neither ts cid id t hf⟩
  · rw [patchThought_unlike ts cid id t hf]
    by_cases hmax : max 0 (t.hearts - 1) = t.hearts
    · rw [if_pos hmax]
    · rw [if_neg hmax]
  · rw [patchThought_unlike ts cid id t hf]
    by_cases hmax : max 0 (t.hearts - 1) = t.hearts
    · rw [if_pos hmax, hf, hmax]
    · rw [if_neg hmax]
      show (setById ts id { t with hearts := max 0 (t.hearts - 1) }).find? _ = _
      rw [find?_setById ts id { t with hearts := max 0 (t.hearts - 1) } hid, hf]
      rfl

/-- Witness for C8: bob (not the owner) gets 403 when editing the message
of alice's thought even with unlike set, and a body with neither field
returns the unmodified record. -/
theorem c8_patch_combined_witness :
    patchThought st1.thoughts "u2" "t1" (some "replacement text") true =
      (⟨403, false, Payload.null,
        "You are not authorized to edit this thought's message."⟩, st1.thoughts) ∧
    patchThought st1.thoughts "u2" "t1" none false =
      (⟨200, true, .thought t1, "No valid update fields provided, thought not modified."⟩,
        st1.thoughts) := by
  have h := c8_patch_combined st1.thoughts "u2" "t1" t1 "replacement text" true (by decide)
  exact ⟨h.1 (by decide), h.2.2⟩

/-- C9: every modelled handler is atomic: each call either fully succeeds
(the envelope has success true) or leaves the stored collections exactly as
they were; no error response is accompanied by a partial mutation.  Stated
for the thought handlers and for the middleware-composed routes. -/
theorem c9_error_atomicity (st : AppState) (ts : List Thought) (hdr : Option String)
    (cid id newId : String) (mo : Option String) (unlike : Bool) (now : Nat) :
    ((deleteThought ts cid id).fst.success = true ∨ (deleteThought ts cid id).snd = ts) ∧
    ((patchThought ts cid id mo unlike).fst.success = true ∨
      (patchThought ts cid id mo unlike).snd = ts) ∧
    ((likeThought ts id).fst.success = true ∨ (likeThought ts id).snd = ts) ∧
    ((postThought ts cid mo newId now).fst.success = true ∨
      (postThought ts cid mo newId now).snd = ts) ∧
    ((routeDeleteThought st hdr id).fst.success = true ∨
      (routeDeleteThought st hdr id).snd = st) ∧
    ((routePatchThought st hdr id mo unlike).fst.success = true ∨
      (routePatchThought st hdr id mo unlike).snd = st) := by
  have hdel : ∀ (ts' : List Thought) (c : String),
      (deleteThought ts' c id).fst.success = true ∨ (deleteThought ts' c id).snd = ts' := by
    intro ts' c
    cases hf : ts'.find? (fun x => x.id = id) with
    | none => right; rw [deleteThought_not_found ts' c id hf]
    | some t =>
      by_cases ho : t.userId = c
      · left; rw [deleteThought_owner ts' c id t hf ho]
      · right; rw [deleteThought_not_owner ts' c id t hf ho]
  have happly : ∀ (ts' : List Thought) (t : Thought) (mu : Option String) (hu : Option Int),
      (patchApply ts' id t mu hu).fst.success = true ∨ (patchApply ts' id t mu hu).snd = ts' := by
    intro ts' t mu hu
    match mu, hu with
    | none, none => left; rfl
    | some m, hu =>
      by_cases hv : validMessage m = true
      · left; simp [patchApply, hv]
      · right; simp [patchApply, hv]
    | none, some h => left; rfl
  have hpatch : ∀ (ts' : List Thought) (c : String),
      (patchThought ts' c id mo unlike).fst.success = true ∨
        (patchThought ts' c id mo unlike).snd = ts' := by
    intro ts' c
    cases hf : ts'.find? (fun x => x.id = id) with
    | none => right; rw [patchThought_not_found ts' c id mo unlike hf]
    | some t =>
      cases mo with
      | none => rw [patchThought_no_msg ts' c id t unlike hf]; exact happly ts' t none _
      | some m =>
        by_cases ho : t.userId = c
        · rw [patchThought_owner_msg ts' c id t m unlike hf ho]
          exact happly ts' t (some m) _
        · right; rw [patchThought_not_owner ts' c id t m unlike hf ho]
  have hlike : (likeThought ts id).fst.success = true ∨ (likeThought ts id).snd = ts := by
    cases hf : ts.find? (fun x => x.id = id) with
    | none => right; unfold likeThought; rw [hf]
    | some t => left; rw [likeThought_found ts id t hf]
  have hpost : (postThought ts cid mo newId now).fst.success = true ∨
      (postThought ts cid mo newId now).snd = ts := by
    cases mo with
    | none => right; rfl
    | some m =>
      by_cases hv : validMessage m = true
      · left; simp [postThought, hv]
      · right; simp [postThought, hv]
  refine ⟨hdel ts cid, hpatch ts cid, hlike, hpost, ?_, ?_⟩
  · cases ha : authenticateUser st.users hdr with
    | err r => right; rw [routeDeleteThought_err st hdr id r ha]
    | ok u =>
      rw [routeDeleteThought_ok st hdr id u ha]
      rcases hdel st.thoughts u.id with hsucc | hsame
      · left; exact hsucc
      · right; rw [hsame]
  · cases ha : authenticateUser st.users hdr with
    | err r => right; rw [routePatchThought_err st hdr id mo unlike r ha]
    | ok u =>
      rw [routePatchThought_ok st hdr id mo unlike u ha]
      rcases hpatch st.thoughts u.id with hsucc | hsame
      · left; exact hsucc
      · right; rw [hsame]

/-! Unfolding lemmas for the GET /thoughts pipeline. -/

theorem truthyParam_some (s : String) (hs : s ≠ "") : truthyParam (some s) = some s := by
  simp [truthyParam, hs]

theorem heartsFilterOf_some (s : String) (hs : s ≠ "") :
    heartsFilterOf (some s) =
      (match parseInt10 s with
       | some n => .ok (some n)
       | none => .error invalidHeartsResp) := by
  unfold heartsFilterOf
  rw [truthyParam_some s hs]

theorem sortKeyOfMain_error_eq (s : Option String) (r : Response)
    (h : sortKeyOfMain s = .error r) : r = invalidSortRespMain := by
  unfold sortKeyOfMain at h
  split at h
  · exact absurd h (by simp)
  · split at h
    · exact absurd h (by simp)
    · split at h
      · exact absurd h (by simp)
      · split at h
        · exact absurd h (by simp)
        · injection h with h'
          exact h'.symm

theorem getThoughts_hearts_error (ts : List Thought) (q : ThoughtsParams) (r : Response)
    (h : heartsFilterOf q.hearts = .error r) : getThoughts ts q = r := by
  unfold getThoughts
  rw [h]

theorem getThoughts_sort_error (ts : List Thought) (q : ThoughtsParams) (hg : Option Int)
    (r : Response) (h1 : heartsFilterOf q.hearts = .ok hg)
    (h2 : sortKeyOfMain q.sort = .error r) : getThoughts ts q = r := by
  unfold getThoughts
  rw [h1, h2]

theorem getThoughts_ok (ts : List Thought) (q : ThoughtsParams) (hg : Option Int)
    (sk : SortKey) (h1 : heartsFilterOf q.hearts = .ok hg)
    (h2 : sortKeyOfMain q.sort = .ok sk) :
    getThoughts ts q =
      ⟨200, true,
        .listing
          (ts.filter (matchesQuery (truthyParam q.id) hg (truthyParam q.message))).length
          (jsOr (q.page.bind parseInt10) 1)
          (((applySort sk
                (ts.filter (matchesQuery (truthyParam q.id) hg (truthyParam q.message)))).drop
              ((jsOr (q.page.bind parseInt10) 1 - 1) * jsOr (q.limit.bind parseInt10) 10).toNat).take
            (jsOr (q.limit.bind parseInt10) 10).toNat).length
          (((applySort sk
                (ts.filter (matchesQuery (truthyParam q.id) hg (truthyParam q.message)))).drop
              ((jsOr (q.page.bind parseInt10) 1 - 1) * jsOr (q.limit.bind parseInt10) 10).toNat).take
            (jsOr (q.limit.bind parseInt10) 10).toNat),
        "Thoughts retrieved successfully."⟩ := by
  unfold getThoughts
  rw [h1, h2]

/-- C4 counterexample: the claim "any non-numeric hearts input yields 400"
fails: the present but empty hearts parameter is non-numeric (parseInt
gives NaN) yet the guard `if (hearts)` skips it and the request succeeds
with 200; moreover "must parse as a non-negative integer" is not enforced:
hearts=-1 is accepted and trivially matches every thought. -/
theorem c4_counterexample :
    parseInt10 "" = none ∧
    (getThoughts [] { emptyParams with hearts := some "" }).status = 200 ∧
    getThoughts [t1] { emptyParams with hearts := some "-1" } =
      ⟨200, true, .listing 1 1 1 [t1], "Thoughts retrieved successfully."⟩ :=
  ⟨by decide, by decide, by decide⟩

/-- C4 amended: when the hearts parameter is present and nonempty it must
parse under JS parseInt as an integer (a sign is allowed and the value may
be negative); if it parses to n, every thought in the response has heart
count at least n; nonempty input that does not parse yields 400 with
message "Invalid 'hearts' parameter. Must be a number."; an empty hearts
parameter is ignored rather than rejected. -/
theorem c4_hearts_filter_amended (ts : List Thought) (q : ThoughtsParams) (s : String)
    (hq : q.hearts = some s) (hs : s ≠ "") :
    (parseInt10 s = none →
      getThoughts ts q =
        ⟨400, false, Payload.null, "Invalid 'hearts' parameter. Must be a number."⟩) ∧
    (∀ n : Int, parseInt10 s = some n →
      ∀ t ∈ responseThoughts (getThoughts ts q), n ≤ t.hearts) := by
  constructor
  · intro hp
    have he : heartsFilterOf q.hearts = .error invalidHeartsResp := by
      rw [hq, heartsFilterOf_some s hs, hp]
    exact getThoughts_hearts_error ts q _ he
  · intro n hp t ht
    have hok : heartsFilterOf q.hearts = .ok (some n) := by
      rw [hq, heartsFilterOf_some s hs, hp]
    cases hsk : sortKeyOfMain q.sort with
    | error r =>
      rw [getThoughts_sort_error ts q (some n) r hok hsk,
        sortKeyOfMain_error_eq q.sort r hsk] at ht
      simp [responseThoughts, invalidSortRespMain] at ht
    | ok sk =>
      rw [getThoughts_ok ts q (some n) sk hok hsk] at ht
      simp only [responseThoughts] at ht
      have h1 : t ∈ applySort sk
          (ts.filter (matchesQuery (truthyParam q.id) (some n) (truthyParam q.message))) :=
        List.mem_of_mem_drop (List.mem_of_mem_take ht)
      have h2 : t ∈ ts.filter (matchesQuery (truthyParam q.id) (some n) (truthyParam q.message)) :=
        (mem_applySort t sk _).1 h1
      have h3 := (List.mem_filter.1 h2).2
      simp only [matchesQuery, Bool.and_eq_true, decide_eq_true_eq] at h3
      exact h3.1.2

/-- Witness for C4 amended: hearts=abc is rejected with the 400 body, and
with hearts=2 every thought in the fixture response has at least 2 hearts. -/
theorem c4_hearts_filter_amended_witness :
    getThoughts [t1] { emptyParams with hearts := some "abc" } =
      ⟨400, false, Payload.null, "Invalid 'hearts' parameter. Must be a number."⟩ ∧
    (∀ t ∈ responseThoughts (getThoughts st1.thoughts { emptyParams with hearts := some "2" }),
      (2 : Int) ≤ t.hearts) := by
  have h1 := c4_hearts_filter_amended [t1] { emptyParams with hearts := some "abc" } "abc"
    rfl (by decide)
  have h2 := c4_hearts_filter_amended st1.thoughts { emptyParams with hearts := some "2" } "2"
    rfl (by decide)
  exact ⟨h1.1 (by decide), h2.2 2 (by decide)⟩

/-- C5 counterexample: the repository's legacy GET /thoughts handler
(`src/server.js`, cited by the claim) rejects sort=createdAt_desc — one of
the four values the claim says is accepted — with 400, while accepting
sort=createdAt. -/
theorem c5_counterexample :
    legacyGetThoughts [] { emptyParams with sort := some "createdAt_desc" } =
      ⟨400, false, Payload.null,
        "Invalid 'sort' parameter. Valid options are 'createdAt' or 'hearts'."⟩ ∧
    (legacyGetThoughts [] { emptyParams with sort := some "createdAt" }).status = 200 :=
  ⟨by decide, by decide⟩

/-- C5 amended: in the current GET /thoughts handler
(`src/unnamed/part_001`) the sort parameter accepts exactly createdAt,
createdAt_desc, createdAt_asc and hearts, and any other nonempty value
yields 400 with the options-listing message and a null response; the legacy
variants accept only createdAt and hearts. -/
theorem c5_sort_enum_amended (ts : List Thought) (s : String) :
    ((s = "createdAt" ∨ s = "createdAt_desc" ∨ s = "createdAt_asc" ∨ s = "hearts") →
      (getThoughts ts { emptyParams with sort := some s }).status = 200) ∧
    (s ≠ "" → s ≠ "createdAt" → s ≠ "createdAt_desc" → s ≠ "createdAt_asc" → s ≠ "hearts" →
      getThoughts ts { emptyParams with sort := some s } =
        ⟨400, false, Payload.null,
          "Invalid 'sort' parameter. Valid options are 'createdAt_desc', 'createdAt_asc', or 'hearts'."⟩) := by
  constructor
  · intro hd
    have hsk : ∃ sk, sortKeyOfMain (some s) = .ok sk := by
      rcases hd with h | h | h | h <;> subst h <;> exact ⟨_, rfl⟩
    obtain ⟨sk, hsk⟩ := hsk
    rw [getThoughts_ok ts { emptyParams with sort := some s } none sk rfl hsk]
  · intro h0 h1 h2 h3 h4
    have hstep : sortKeyOfMain (some s) =
        (if s = "createdAt_desc" ∨ s = "createdAt" then Except.ok SortKey.createdAtDesc
         else if s = "createdAt_asc" then Except.ok SortKey.createdAtAsc
         else if s = "hearts" then Except.ok SortKey.heartsDesc
         else Except.error invalidSortRespMain) := by
      unfold sortKeyOfMain
      rw [truthyParam_some s h0]
    have hsk : sortKeyOfMain (some s) = .error invalidSortRespMain := by
      rw [hstep, if_neg (by rintro (h | h) <;> simp_all), if_neg h3, if_neg h4]
    exact getThoughts_sort_error ts { emptyParams with sort := some s } none
      invalidSortRespMain rfl hsk

/-- Witness for C5 amended: sort=hearts succeeds and sort=foo is rejected
with the 400 body on the fixture state. -/
theorem c5_sort_enum_amended_witness :
    (getThoughts st1.thoughts { emptyParams with sort := some "hearts" }).status = 200 ∧
    getThoughts st1.thoughts { emptyParams with sort := some "foo" } =
      ⟨400, false, Payload.null,
        "Invalid 'sort' parameter. Valid options are 'createdAt_desc', 'createdAt_asc', or 'hearts'."⟩ := by
  have h1 := c5_sort_enum_amended st1.thoughts "hearts"
  have h2 := c5_sort_enum_amended st1.thoughts "foo"
  exact ⟨h1.1 (Or.inr (Or.inr (Or.inr rfl))),
    h2.2 (by decide) (by decide) (by decide) (by decide) (by decide)⟩

/-- C6 counterexample: in the legacy GET /thoughts handler cited by the
claim (`src/server.js`), sort=createdAt and sort=createdAt_desc do not
produce identical responses: the former is a 200 listing, the latter a 400
error. -/
theorem c6_counterexample :
    legacyGetThoughts [] { emptyParams with sort := some "createdAt" } ≠
      legacyGetThoughts [] { emptyParams with sort := some "createdAt_desc" } := by
  decide

/-- C6 amended: in the current GET /thoughts handler
(`src/unnamed/part_001`) sort=createdAt and sort=createdAt_desc produce
identical responses for every stored collection and every combination of
the other query parameters. -/
theorem c6_sort_alias_amended (ts : List Thought) (h m p l i : Option String) :
    getThoughts ts ⟨h, m, p, l, some "createdAt", i⟩ =
      getThoughts ts ⟨h, m, p, l, some "createdAt_desc", i⟩ := by
  cases hh : heartsFilterOf h with
  | error r =>
    rw [getThoughts_hearts_error ts ⟨h, m, p, l, some "createdAt", i⟩ r hh,
      getThoughts_hearts_error ts ⟨h, m, p, l, some "createdAt_desc", i⟩ r hh]
  | ok hg =>
    rw [getThoughts_ok ts ⟨h, m, p, l, some "createdAt", i⟩ hg .createdAtDesc hh rfl,
      getThoughts_ok ts ⟨h, m, p, l, some "createdAt_desc", i⟩ hg .createdAtDesc hh rfl]

/-- C7: for GET /thoughts with parsed page p ≥ 1 and limit l ≥ 1, the
returned thoughts are exactly the window starting at index (p-1)*l of
length at most l of the sorted filtered list — the window
[(p-1)*l, p*l) applied after filtering and sorting; the returned count is
at most the limit; the reported total equals the number of matching records
before pagination and does not depend on page or limit; and a page or limit
that fails to parse falls back to 1 and 10 respectively instead of
erroring. -/
theorem c7_pagination (ts : List Thought) (q : ThoughtsParams) (hg : Option Int)
    (sk : SortKey) (p l : Int)
    (h1 : heartsFilterOf q.hearts = .ok hg) (h2 : sortKeyOfMain q.sort = .ok sk)
    (hp : jsOr (q.page.bind parseInt10) 1 = p) (hl : jsOr (q.limit.bind parseInt10) 10 = l)
    (hp1 : 1 ≤ p) (hl1 : 1 ≤ l) :
    (responseThoughts (getThoughts ts q) =
      ((applySort sk (ts.filter (matchesQuery (truthyParam q.id) hg (truthyParam q.message)))).drop
          ((p - 1) * l).toNat).take l.toNat) ∧
    (∀ i : Nat, i < l.toNat →
      (responseThoughts (getThoughts ts q))[i]? =
        (applySort sk
          (ts.filter (matchesQuery (truthyParam q.id) hg (truthyParam q.message))))[((p - 1) * l).toNat + i]?) ∧
    (((p - 1) * l).toNat + l.toNat = (p * l).toNat) ∧
    ((responseThoughts (getThoughts ts q)).length ≤ l.toNat) ∧
    (responseTotal (getThoughts ts q) =
      some (ts.filter (matchesQuery (truthyParam q.id) hg (truthyParam q.message))).length) ∧
    (∀ p2 l2 : Option String,
      responseTotal (getThoughts ts { q with page := p2, limit := l2 }) =
        responseTotal (getThoughts ts q)) ∧
    (q.page.bind parseInt10 = none → p = 1) ∧
    (q.limit.bind parseInt10 = none → l = 10) := by
  subst hp
  subst hl
  have hmain := getThoughts_ok ts q hg sk h1 h2
  refine ⟨?_, ?_, ?_, ?_, ?_, ?_, ?_, ?_⟩
  · rw [hmain]
    rfl
  · intro i hi
    rw [hmain]
    show (((applySort sk _).drop _).take _)[i]? = _
    rw [List.getElem?_take_of_lt hi]
    exact List.getElem?_drop _ _ i
  · have hnn : 0 ≤ (jsOr (q.page.bind parseInt10) 1 - 1) * jsOr (q.limit.bind parseInt10) 10 :=
      mul_nonneg (by omega) (by omega)
    have hll : (0 : Int) ≤ jsOr (q.limit.bind parseInt10) 10 := by omega
    rw [← Int.toNat_add hnn hll]
    have he : (jsOr (q.page.bind parseInt10) 1 - 1) * jsOr (q.limit.bind parseInt10) 10 +
        jsOr (q.limit.bind parseInt10) 10 =
        jsOr (q.page.bind parseInt10) 1 * jsOr (q.limit.bind parseInt10) 10 := by ring
    rw [he]
  · rw [hmain]
    show ((_ : List Thought).take _).length ≤ _
    exact List.length_take_le _ _
  · rw [hmain]
    rfl
  · intro p2 l2
    have hmain2 := getThoughts_ok ts { q with page := p2, limit := l2 } hg sk h1 h2
    rw [hmain, hmain2]
    rfl
  · intro hN
    rw [hN]
    rfl
  · intro hN
    rw [hN]
    rfl

/-- Witness for C7: page=2 with limit=1 on the three-thought fixture
returns at most one record and reports the page/limit-independent total 3. -/
theorem c7_pagination_witness :
    ((responseThoughts
        (getThoughts st1.thoughts ⟨none, none, some "2", some "1", none, none⟩)).length ≤
      (1 : Int).toNat) ∧
    responseTotal (getThoughts st1.thoughts ⟨none, none, some "2", some "1", none, none⟩) =
      some (st1.thoughts.filter (matchesQuery none none none)).length := by
  have h := c7_pagination st1.thoughts ⟨none, none, some "2", some "1", none, none⟩
    none .natural 2 1 rfl rfl (by decide) (by decide) (by decide) (by decide)
  exact ⟨h.2.2.2.1, h.2.2.2.2.1⟩

end HappyThoughts
